import Mathlib

/-!
Formal model of the tuicr review-session event loop, embedded from
src/src/main.rs. Pure helper methods that live in modules outside src/
(app.rs, input.rs, handler.rs) are modelled from the specification and
carry a doc comment saying so; everything else is transcribed from the
visible source. External fallible collaborators (session persistence,
clipboard export, VCS reload) are supplied as explicit outcome
parameters, and two instrumentation counters record how often the save
and export collaborators are invoked.
-/

namespace Tuicr

/-- Input modes of the application (spec section 4.5; dispatched on in
src/src/main.rs lines 220-232). -/
inductive InputMode
  | Normal | Command | Search | Comment | Confirm | CommitSelect | VisualSelect | Help
deriving DecidableEq, Repr

/-- Panel focus in Normal mode (src/src/main.rs lines 228-231). -/
inductive FocusedPanel
  | FileList | Diff
deriving DecidableEq, Repr

/-- Pending confirmation action (src/src/main.rs line 464, line 499). -/
inductive ConfirmAction
  | CopyAndQuit
deriving DecidableEq, Repr

/-- Kind of a status message, distinguishing set_message, set_error and
set_warning (app.rs, not in src/). -/
inductive MsgKind
  | info | error | warning
deriving DecidableEq, Repr

/-- A status message shown to the user. -/
structure Message where
  kind : MsgKind
  text : String
deriving DecidableEq, Repr

/-- Logical anchor of a comment: file path plus optional line anchor
(spec section 3, Comment). -/
structure Anchor where
  path : String
  line : Option Nat
deriving DecidableEq, Repr

/-- A stored review comment (spec section 3, Comment). -/
structure Comment where
  anchor : Anchor
  kind : Nat
  body : String
deriving DecidableEq, Repr

/-- The durable Session: comment store plus reviewed-file paths
(spec section 3, Session). -/
structure Session where
  comments : List Comment
  reviewed : List String
deriving DecidableEq, Repr

/-- Whether the session holds any comments (spec section 4.4: gates the
quit-with-save export prompt). -/
def Session.has_comments (s : Session) : Bool := !s.comments.isEmpty

/-- The orchestrator state visible to the event loop in src/src/main.rs.
comment_buffer holds the characters of the Rust String draft and
comment_cursor is its cursor, a byte index into the UTF-8 encoding as in
the source. The fields save_count and export_count are instrumentation
counting the invocations of the external save and export collaborators;
panicked becomes true when a comment-buffer operation uses a byte index
off a character boundary, where the source program panics (the panic
hook restores the terminal and the process dies). -/
structure App where
  should_quit : Bool
  input_mode : InputMode
  focused_panel : FocusedPanel
  message : Option Message
  command_buffer : String
  comment_buffer : List Char
  comment_cursor : Nat
  panicked : Bool
  draft_anchor : Option Anchor
  draft_kind : Nat
  dirty : Bool
  session : Session
  diff : List String
  diff_source : String
  cursor_anchor : Option Anchor
  pending_confirm : Option ConfirmAction
  file_list_visible : Bool
  save_count : Nat
  export_count : Nat
deriving DecidableEq, Repr

/-- Modelled from the spec: set_message (app.rs, not in src/) stores an
informational status message. -/
def App.set_message (a : App) (t : String) : App :=
  { a with message := some ⟨MsgKind.info, t⟩ }

/-- Modelled from the spec: set_error (app.rs, not in src/) stores an
error status message. -/
def App.set_error (a : App) (t : String) : App :=
  { a with message := some ⟨MsgKind.error, t⟩ }

/-- Modelled from the spec: set_warning (app.rs, not in src/) stores a
warning status message. -/
def App.set_warning (a : App) (t : String) : App :=
  { a with message := some ⟨MsgKind.warning, t⟩ }

/-- Modelled from the spec: exit_command_mode (app.rs, not in src/).
Command mode always returns to Normal afterward (spec section 6) and the
free-text command buffer is reset. -/
def App.exit_command_mode (a : App) : App :=
  { a with input_mode := InputMode.Normal, command_buffer := "" }

/-- Modelled from the spec: exit_comment_mode (app.rs, not in src/).
Cancelling discards the draft without mutating the store
(spec section 4.3). -/
def App.exit_comment_mode (a : App) : App :=
  { a with
    input_mode := InputMode.Normal
    comment_buffer := []
    comment_cursor := 0
    draft_anchor := none }

/-- Modelled from the spec: enter_confirm_mode (app.rs, not in src/)
arms the pending consequential action behind a yes/no prompt
(spec section 4.5, Confirm). -/
def App.enter_confirm_mode (a : App) (c : ConfirmAction) : App :=
  { a with input_mode := InputMode.Confirm, pending_confirm := some c }

/-- Modelled from the spec: exit_confirm_mode (app.rs, not in src/)
leaves the prompt and clears the pending action. -/
def App.exit_confirm_mode (a : App) : App :=
  { a with input_mode := InputMode.Normal, pending_confirm := none }

/-- Modelled from the spec: save_comment (app.rs, not in src/) commits
the draft to the Comment Store, marks dirty, and returns to Normal mode
(spec section 4.3). -/
def App.save_comment (a : App) : App :=
  { a with
    session := { a.session with
      comments := a.session.comments ++
        [⟨a.draft_anchor.getD ⟨"", none⟩, a.draft_kind, String.mk a.comment_buffer⟩] }
    dirty := true
    input_mode := InputMode.Normal
    comment_buffer := []
    comment_cursor := 0
    draft_anchor := none }

/-- Removes the first comment carrying the given anchor, keeping every
other comment in order. -/
def removeFirstAnchored (anc : Anchor) : List Comment → List Comment
  | [] => []
  | c :: cs => if c.anchor = anc then cs else c :: removeFirstAnchored anc cs

/-- Modelled from the spec: delete_comment_at_cursor (app.rs, not in
src/) removes the Comment anchored at the current line, if any, and
returns whether one existed (spec section 4.3). -/
def App.delete_comment_at_cursor (a : App) : Bool × App :=
  match a.cursor_anchor with
  | none => (false, a)
  | some anc =>
    if a.session.comments.any (fun c => c.anchor = anc) then
      (true, { a with
        session := { a.session with
          comments := removeFirstAnchored anc a.session.comments }
        dirty := true })
    else (false, a)

/-- Modelled from the spec: center_cursor (app.rs, not in src/) adjusts
only the viewport scroll, which is rendering state and outside the
modelled core (spec section 1, out of scope). -/
def App.center_cursor (a : App) : App := a

/-- Modelled from the spec: toggle_file_list (app.rs, not in src/)
toggles visibility of the file-list panel. -/
def App.toggle_file_list (a : App) : App :=
  { a with file_list_visible := !a.file_list_visible }

/-- Modelled from the spec: cycle_comment_type (app.rs, not in src/)
advances the draft comment kind through a fixed enumerated cycle
(spec section 4.3). -/
def App.cycle_comment_type (a : App) : App :=
  { a with draft_kind := (a.draft_kind + 1) % 3 }

/-- Modelled from the spec: reload_diff_files (app.rs, not in src/)
replaces the diff model and merges comments and review flags by path;
paths absent from the new diff are dropped (spec section 3, Session). -/
def App.reloadMerge (a : App) (files : List String) : App :=
  { a with
    diff := files
    session :=
      { comments := a.session.comments.filter (fun c => files.contains c.anchor.path)
        reviewed := a.session.reviewed.filter (fun p => files.contains p) } }

/-- Outcomes of the external fallible collaborators invoked by the event
loop: session persistence (save_session, persistence module not in
src/), clipboard or stdout export (export_to_clipboard, output module
not in src/), and VCS reload. Ok carries the saved path, the success
message, and the new diff file list respectively. -/
structure ExtEnv where
  saveRes : Except String String
  exportRes : Except String String
  reloadRes : Except String (List String)

/-- Modelled from the spec: the Action vocabulary produced by the key
mapper (input.rs, not in src/). The constructors are those consumed by
the visible event loop in src/src/main.rs; navigation and other actions
not involved in the claims are collapsed into other, whose arm in the
visible action match only touches state outside this model. -/
inductive Action
  | PendingZCommand | PendingDCommand | PendingSemicolonCommand
  | InsertChar (c : Char) | DeleteChar | DeleteWord | ClearLine
  | TextCursorLeft | TextCursorRight | CycleCommentType
  | SubmitInput | ConfirmYes | ConfirmNo | ExportToClipboard
  | other
deriving DecidableEq, Repr

/-- The Unicode White_Space property as decided by the char is_whitespace
method of the Rust standard library: U+0009 to U+000D, U+0020, U+0085,
U+00A0, U+1680, U+2000 to U+200A, U+2028, U+2029, U+202F, U+205F and
U+3000. -/
def rustIsWhitespace (c : Char) : Bool :=
  let n := c.toNat
  (0x09 ≤ n ∧ n ≤ 0x0D) || n = 0x20 || n = 0x85 || n = 0xA0 || n = 0x1680 ||
  (0x2000 ≤ n ∧ n ≤ 0x200A) || n = 0x2028 || n = 0x2029 || n = 0x202F ||
  n = 0x205F || n = 0x3000

/-- Number of bytes in the UTF-8 encoding of a character, as the char
len_utf8 method of the Rust standard library computes it. -/
def charUtf8Size (c : Char) : Nat :=
  if c.toNat < 0x80 then 1
  else if c.toNat < 0x800 then 2
  else if c.toNat < 0x10000 then 3
  else 4

/-- Byte length of a character list under UTF-8, the semantics of the len
method on a Rust String. -/
def byteLen : List Char → Nat
  | [] => 0
  | c :: cs => charUtf8Size c + byteLen cs

/-- Insertion into a Rust String at a byte index (String::insert): none when
the index is past the end or not at a character boundary, in which case the
source program panics. -/
def insertAtByte : List Char → Nat → Char → Option (List Char)
  | l, 0, c => some (c :: l)
  | [], _ + 1, _ => none
  | d :: ds, b, c =>
    if b < charUtf8Size d then none
    else (insertAtByte ds (b - charUtf8Size d) c).map (d :: ·)

/-- Removal of the character starting at a byte index of a Rust String
(String::remove): none when the index is at or past the end or not at a
character boundary, in which case the source program panics. -/
def removeAtByte : List Char → Nat → Option (List Char)
  | [], _ => none
  | d :: ds, b =>
    if b = 0 then some ds
    else if b < charUtf8Size d then none
    else (removeAtByte ds (b - charUtf8Size d)).map (d :: ·)

/-- Removal of leading and trailing whitespace, the semantics of the trim
call on the command buffer (src/src/main.rs line 446; str::trim uses the
Unicode whitespace property). Defined structurally over the character list
so that it evaluates by kernel reduction. -/
def strTrim (s : String) : String :=
  String.mk (((s.data.dropWhile rustIsWhitespace).reverse.dropWhile
    rustIsWhitespace).reverse)

/-- Removal of the last character, the semantics of the pop call on the
command buffer (src/src/main.rs line 392), defined structurally. -/
def strPop (s : String) : String := String.mk s.data.dropLast

/-- Backward deletion loop of the DeleteWord action (src/src/main.rs
lines 413-435): while the cursor is positive and the character just
before it satisfies p, decrement the cursor and remove at the cursor. As
in the source, the inspected character is found by the char index
chars().nth(cursor - 1) while the removal uses the cursor as a byte
index of String::remove; none records the panic of a removal off a
character boundary. Returns the new buffer and cursor on success. -/
def deleteBackWhile (p : Char → Bool) : List Char → Nat → Option (List Char × Nat)
  | buf, 0 => some (buf, 0)
  | buf, c + 1 =>
    if ((buf.get? c).map p).getD false then
      match removeAtByte buf c with
      | some buf1 => deleteBackWhile p buf1 c
      | none => none
    else some (buf, c + 1)

/-- Command execution on Submit in Command mode (src/src/main.rs lines
445-492). The trimmed buffer selects the command; every branch falls
through to exit_command_mode at the end, except the save-and-quit branch
that enters the confirmation prompt, whose continue statement skips the
trailing exit_command_mode (it already switched modes itself). -/
def submitCommand (env : ExtEnv) (a : App) : App :=
  let cmd := strTrim a.command_buffer
  if cmd = "q" ∨ cmd = "quit" then
    App.exit_command_mode { a with should_quit := true }
  else if cmd = "w" ∨ cmd = "write" then
    let a1 := { a with save_count := a.save_count + 1 }
    match env.saveRes with
    | Except.ok path =>
      App.exit_command_mode (App.set_message { a1 with dirty := false } ("Saved to " ++ path))
    | Except.error e =>
      App.exit_command_mode (App.set_error a1 ("Save failed: " ++ e))
  else if cmd = "x" ∨ cmd = "wq" then
    let a1 := { a with save_count := a.save_count + 1 }
    match env.saveRes with
    | Except.ok _ =>
      let a2 := { a1 with dirty := false }
      if a2.session.has_comments then
        App.enter_confirm_mode (App.exit_command_mode a2) ConfirmAction.CopyAndQuit
      else
        App.exit_command_mode { a2 with should_quit := true }
    | Except.error e =>
      App.exit_command_mode (App.set_error a1 ("Save failed: " ++ e))
  else if cmd = "e" ∨ cmd = "reload" then
    match env.reloadRes with
    | Except.ok files =>
      App.exit_command_mode
        (App.set_message (App.reloadMerge a files)
          ("Reloaded " ++ toString files.length ++ " files"))
    | Except.error e =>
      App.exit_command_mode (App.set_error a ("Reload failed: " ++ e))
  else if cmd = "clip" ∨ cmd = "export" then
    let a1 := { a with export_count := a.export_count + 1 }
    match env.exportRes with
    | Except.ok m => App.exit_command_mode (App.set_message a1 m)
    | Except.error e => App.exit_command_mode (App.set_warning a1 e)
  else
    App.exit_command_mode (App.set_message a ("Unknown command: " ++ cmd))

/-- The action dispatch of src/src/main.rs (the match arms at lines
382-529). Arms for actions outside the claims leave the modelled state
unchanged. -/
def applyAction (env : ExtEnv) (a : App) : Action → App
  | Action.InsertChar c =>
    if a.input_mode = InputMode.Command then
      { a with command_buffer := a.command_buffer.push c }
    else if a.input_mode = InputMode.Comment then
      match insertAtByte a.comment_buffer a.comment_cursor c with
      | some l =>
        { a with
          comment_buffer := l
          comment_cursor := a.comment_cursor + 1 }
      | none => { a with panicked := true }
    else a
  | Action.DeleteChar =>
    if a.input_mode = InputMode.Command then
      { a with command_buffer := strPop a.command_buffer }
    else if a.input_mode = InputMode.Comment ∧ a.comment_cursor > 0 then
      match removeAtByte a.comment_buffer (a.comment_cursor - 1) with
      | some l =>
        { a with
          comment_cursor := a.comment_cursor - 1
          comment_buffer := l }
      | none => { a with panicked := true }
    else a
  | Action.CycleCommentType => a.cycle_comment_type
  | Action.TextCursorLeft =>
    if a.comment_cursor > 0 then { a with comment_cursor := a.comment_cursor - 1 } else a
  | Action.TextCursorRight =>
    if a.comment_cursor < byteLen a.comment_buffer then
      { a with comment_cursor := a.comment_cursor + 1 }
    else a
  | Action.DeleteWord =>
    if a.input_mode = InputMode.Comment ∧ a.comment_cursor > 0 then
      match deleteBackWhile rustIsWhitespace a.comment_buffer a.comment_cursor with
      | none => { a with panicked := true }
      | some r1 =>
        match deleteBackWhile (fun c => !rustIsWhitespace c) r1.1 r1.2 with
        | none => { a with panicked := true }
        | some r2 =>
          { a with
            comment_buffer := r2.1
            comment_cursor := r2.2 }
    else a
  | Action.ClearLine =>
    if a.input_mode = InputMode.Comment then
      { a with comment_buffer := [], comment_cursor := 0 }
    else a
  | Action.SubmitInput =>
    if a.input_mode = InputMode.Command then submitCommand env a
    else if a.input_mode = InputMode.Comment then a.save_comment
    else a
  | Action.ConfirmYes =>
    if a.input_mode = InputMode.Confirm then
      let a1 :=
        if a.pending_confirm = some ConfirmAction.CopyAndQuit then
          let a0 := { a with export_count := a.export_count + 1 }
          match env.exportRes with
          | Except.ok m => App.set_message a0 m
          | Except.error e => App.set_warning a0 e
        else a
      { a1.exit_confirm_mode with should_quit := true }
    else a
  | Action.ConfirmNo =>
    if a.input_mode = InputMode.Confirm then
      { a.exit_confirm_mode with should_quit := true }
    else a
  | Action.ExportToClipboard =>
    let a0 := { a with export_count := a.export_count + 1 }
    (match env.exportRes with
     | Except.ok m => App.set_message a0 m
     | Except.error e => App.set_warning a0 e)
  | _ => a

/-- Key codes relevant to the visible event loop; otherBey stands for
any key carrying none of the named codes. -/
inductive KeyCode
  | char (c : Char) | enter | esc | backspace | otherKey
deriving DecidableEq, Repr

/-- A key press: code plus whether the control modifier is held. -/
structure Key where
  code : KeyCode
  ctrl : Bool
deriving DecidableEq, Repr

/-- Modelled from the spec: map_key_to_action (input.rs, not in src/).
Mode-aware mapping (spec section 4.5): in Normal mode the leader keys z,
d and the semicolon arm pending sequences and other keys navigate
(navigation is outside the claims and maps to other); in Command and
Comment modes printable characters insert text, Enter submits and
Backspace deletes; Confirm mode maps y and n to the confirmation
answers. -/
def map_key_to_action (k : Key) (m : InputMode) : Action :=
  match m with
  | InputMode.Normal =>
    match k.code with
    | KeyCode.char 'z' => Action.PendingZCommand
    | KeyCode.char 'd' => Action.PendingDCommand
    | KeyCode.char ';' => Action.PendingSemicolonCommand
    | _ => Action.other
  | InputMode.Command =>
    match k.code with
    | KeyCode.char c => Action.InsertChar c
    | KeyCode.enter => Action.SubmitInput
    | KeyCode.backspace => Action.DeleteChar
    | _ => Action.other
  | InputMode.Comment =>
    match k.code with
    | KeyCode.char c => Action.InsertChar c
    | KeyCode.enter => Action.SubmitInput
    | KeyCode.backspace => Action.DeleteChar
    | _ => Action.other
  | InputMode.Confirm =>
    match k.code with
    | KeyCode.char 'y' => Action.ConfirmYes
    | KeyCode.char 'n' => Action.ConfirmNo
    | _ => Action.other
  | _ => Action.other

/-- Event-loop state alongside the App: the pending leader-key slots and
the pending interrupt timestamp (src/src/main.rs lines 97-104). -/
structure LoopState where
  app : App
  pending_z : Bool
  pending_d : Bool
  pending_semicolon : Bool
  pending_ctrl_c : Option Nat
deriving DecidableEq, Repr

/-- Timeout for the press-Ctrl-C-again-to-exit feature, in seconds
(src/src/main.rs line 40). -/
def CTRL_C_EXIT_TIMEOUT : Nat := 2

/-- Final stage of key handling (src/src/main.rs lines 200-217): map
the key to an Action; the pending-sequence arming actions set their flag
and consume the event, everything else is dispatched to the action match
(the per-mode handlers of handler.rs forward to the visible arms). -/
def dispatchKey (env : ExtEnv) (k : Key) (s : LoopState) : LoopState :=
  match map_key_to_action k s.app.input_mode with
  | Action.PendingZCommand => { s with pending_z := true }
  | Action.PendingDCommand => { s with pending_d := true }
  | Action.PendingSemicolonCommand => { s with pending_semicolon := true }
  | act => { s with app := applyAction env s.app act }

/-- Pending-semicolon stage (src/src/main.rs lines 179-198): e toggles
the file list, h and l set panel focus; any other key falls through to
normal dispatch with the pending slot cleared. -/
def afterPendingD (env : ExtEnv) (k : Key) (s : LoopState) : LoopState :=
  if s.pending_semicolon then
    let s1 := { s with pending_semicolon := false }
    match k.code with
    | KeyCode.char 'e' => { s1 with app := s1.app.toggle_file_list }
    | KeyCode.char 'h' => { s1 with app := { s1.app with focused_panel := FocusedPanel.FileList } }
    | KeyCode.char 'l' => { s1 with app := { s1.app with focused_panel := FocusedPanel.Diff } }
    | _ => dispatchKey env k s1
  else dispatchKey env k s

/-- Pending-d stage (src/src/main.rs lines 167-177): a second d deletes
the comment at the cursor, reporting when there is none; any other key
falls through to the next stage with the pending slot cleared. -/
def afterPendingZ (env : ExtEnv) (k : Key) (s : LoopState) : LoopState :=
  if s.pending_d then
    let s1 := { s with pending_d := false }
    if k.code = KeyCode.char 'd' then
      let r := s1.app.delete_comment_at_cursor
      { s1 with app := if r.1 then r.2 else App.set_message r.2 "No comment at cursor" }
    else afterPendingD env k s1
  else afterPendingD env k s

/-- Pending-z stage (src/src/main.rs lines 157-165): a second z centers
the viewport; any other key falls through with the pending slot
cleared. -/
def afterCtrlC (env : ExtEnv) (k : Key) (s : LoopState) : LoopState :=
  if s.pending_z then
    let s1 := { s with pending_z := false }
    if k.code = KeyCode.char 'z' then { s1 with app := s1.app.center_cursor }
    else afterPendingZ env k s1
  else afterPendingZ env k s

/-- One key-press event (src/src/main.rs lines 125-232). now is the
wall-clock reading, in seconds, when the event is processed. The
interrupt key is handled first: in Comment mode it cancels the draft,
then a second press within the timeout quits while otherwise the press
arms the countdown and shows the warning. Any other key clears a pending
interrupt and its message before the staged pending-key handling. -/
def handleKey (env : ExtEnv) (now : Nat) (k : Key) (s : LoopState) : LoopState :=
  if k.code = KeyCode.char 'c' ∧ k.ctrl then
    let a := if s.app.input_mode = InputMode.Comment then s.app.exit_comment_mode else s.app
    match s.pending_ctrl_c with
    | some t =>
      if now - t < CTRL_C_EXIT_TIMEOUT then
        { s with app := { a with should_quit := true } }
      else
        { s with
          app := App.set_message a "Press Ctrl+C again to exit"
          pending_ctrl_c := some now }
    | none =>
      { s with
        app := App.set_message a "Press Ctrl+C again to exit"
        pending_ctrl_c := some now }
  else
    let s1 :=
      if s.pending_ctrl_c.isSome then
        { s with pending_ctrl_c := none, app := { s.app with message := none } }
      else s
    afterCtrlC env k s1

/-- Top-of-loop auto-clear of an expired pending interrupt press
(src/src/main.rs lines 113-119). -/
def autoClear (now : Nat) (s : LoopState) : LoopState :=
  match s.pending_ctrl_c with
  | some t =>
    if CTRL_C_EXIT_TIMEOUT ≤ now - t then
      { s with pending_ctrl_c := none, app := { s.app with message := none } }
    else s
  | none => s

/-- One loop iteration observing a key event at the given time: the
auto-clear runs at the top of the iteration, then the event is
handled. -/
def step (env : ExtEnv) (s : LoopState) (e : Nat × Key) : LoopState :=
  handleKey env e.1 e.2 (autoClear e.1 s)

/-- Runs the loop over a list of timed key events, stopping as the code
does once should_quit is observed at the bottom of an iteration
(src/src/main.rs lines 533-535). -/
def runLoop (env : ExtEnv) (s : LoopState) : List (Nat × Key) → LoopState
  | [] => s
  | e :: rest =>
    let s1 := step env s e
    if s1.app.should_quit then s1 else runLoop env s1 rest

/-- The message printed on startup failure (src/src/main.rs lines
67-73), naming the three supported backends. -/
def startupFailureBanner (e : String) : String :=
  "Error: " ++ e ++
  "\n\nMake sure you're in a git, jujutsu, or mercurial repository with uncommitted changes."

/-- Initial loop state: all pending slots empty (src/src/main.rs lines
97-104). -/
def initLoopState (a : App) : LoopState :=
  { app := a
    pending_z := false
    pending_d := false
    pending_semicolon := false
    pending_ctrl_c := none }

/-- Process outcome of main (src/src/main.rs lines 62-74 and 533-549):
startup failure exits with code 1 after printing the banner; otherwise
the loop runs and a should_quit exit returns Ok, that is exit code 0.
none means the loop is still running after the given events. -/
def mainExitCode (startup : Except String App) (env : ExtEnv)
    (events : List (Nat × Key)) : Option Nat :=
  match startup with
  | Except.error _ => some 1
  | Except.ok a =>
    let final := runLoop env (initLoopState a) events
    if final.app.should_quit then some 0 else none

/-- Whether the pattern list occurs at the head of the text list. -/
def startsWithL : List Char → List Char → Bool
  | _, [] => true
  | [], _ :: _ => false
  | c :: cs, d :: ds => c == d && startsWithL cs ds

/-- Whether the pattern list occurs anywhere inside the text list. -/
def containsL : List Char → List Char → Bool
  | [], n => n.isEmpty
  | h :: t, n => startsWithL (h :: t) n || containsL t n

/-- Substring test on strings, via the underlying character lists. -/
def strContains (h n : String) : Bool := containsL h.data n.data

/-- Folds a list of actions through the dispatcher. -/
def applyActions (env : ExtEnv) (a : App) (l : List Action) : App :=
  l.foldl (applyAction env) a

/-- The interrupt key: Ctrl held together with the letter c. -/
def ctrlCKey : Key := ⟨KeyCode.char 'c', true⟩

/-- Sample collaborator outcomes where every external call succeeds. -/
def env0 : ExtEnv :=
  ⟨Except.ok "sess.json", Except.ok "Copied review to clipboard", Except.ok ["a.txt"]⟩

/-- Sample collaborator outcomes where saving and exporting fail. -/
def envFail : ExtEnv :=
  ⟨Except.error "disk full", Except.error "no clipboard", Except.error "vcs gone"⟩

/-- A sample application state: Normal mode, empty session, clean. -/
def app0 : App :=
  { should_quit := false
    input_mode := InputMode.Normal
    focused_panel := FocusedPanel.Diff
    message := none
    command_buffer := ""
    comment_buffer := []
    comment_cursor := 0
    panicked := false
    draft_anchor := none
    draft_kind := 0
    dirty := false
    session := { comments := [], reviewed := [] }
    diff := ["a.txt"]
    diff_source := "working"
    cursor_anchor := none
    pending_confirm := none
    file_list_visible := true
    save_count := 0
    export_count := 0 }

/-- A sample comment anchored at line 3 of the sample file. -/
def com0 : Comment := ⟨⟨"a.txt", some 3⟩, 0, "rename this"⟩

/-- Sample state holding one comment, with the cursor on its anchor. -/
def app1 : App :=
  { app0 with
    session := { comments := [com0], reviewed := [] }
    cursor_anchor := some ⟨"a.txt", some 3⟩ }

/-- Removing the first comment with a present anchor shortens the store
by exactly one. -/
lemma removeFirstAnchored_length (anc : Anchor) :
    ∀ l : List Comment, (l.any fun c => c.anchor = anc) = true →
      (removeFirstAnchored anc l).length + 1 = l.length := by
  intro l h
  induction l with
  | nil => simp at h
  | cons c cs ih =>
    by_cases hc : c.anchor = anc
    · simp [removeFirstAnchored, hc]
    · simp only [removeFirstAnchored, if_neg hc, List.length_cons]
      simp only [List.any_cons, Bool.or_eq_true, decide_eq_true_eq] at h
      rcases h with h | h
      · exact absurd h hc
      · rw [ih h]

/-- A comment with a different anchor survives the removal. -/
lemma mem_removeFirstAnchored (anc : Anchor) (c : Comment) (hne : c.anchor ≠ anc) :
    ∀ l : List Comment, c ∈ l → c ∈ removeFirstAnchored anc l := by
  intro l hmem
  induction l with
  | nil => simp at hmem
  | cons d ds ih =>
    rcases List.mem_cons.mp hmem with h | h
    · subst h
      simp [removeFirstAnchored, hne]
    · by_cases hd : d.anchor = anc
      · simpa [removeFirstAnchored, hd] using h
      · simp only [removeFirstAnchored, if_neg hd]
        exact List.mem_cons_of_mem d (ih h)

/-- Substring occurrence is preserved by prepending text. -/
lemma containsL_append_of_right (n : List Char) :
    ∀ xs ys : List Char, containsL ys n = true → containsL (xs ++ ys) n = true := by
  intro xs
  induction xs with
  | nil => intro ys h; simpa using h
  | cons x t ih =>
    intro ys h
    simp only [List.cons_append, containsL, Bool.or_eq_true]
    exact Or.inr (ih ys h)

/-- C2: in Confirm mode both ConfirmYes and ConfirmNo set the quit flag to
true; the two outcomes agree on the session, the resulting mode, the pending
action and the dirty flag, and differ only in whether the pending export is
performed (ConfirmNo never invokes the export collaborator, ConfirmYes
invokes it exactly once when the pending action is CopyAndQuit). -/
theorem C2_confirm_both_quit (env : ExtEnv) (a : App)
    (h : a.input_mode = InputMode.Confirm) :
    (applyAction env a Action.ConfirmYes).should_quit = true ∧
    (applyAction env a Action.ConfirmNo).should_quit = true ∧
    (applyAction env a Action.ConfirmNo).export_count = a.export_count ∧
    (a.pending_confirm = some ConfirmAction.CopyAndQuit →
      (applyAction env a Action.ConfirmYes).export_count = a.export_count + 1) ∧
    (applyAction env a Action.ConfirmYes).session =
      (applyAction env a Action.ConfirmNo).session ∧
    (applyAction env a Action.ConfirmYes).input_mode =
      (applyAction env a Action.ConfirmNo).input_mode ∧
    (applyAction env a Action.ConfirmYes).pending_confirm =
      (applyAction env a Action.ConfirmNo).pending_confirm ∧
    (applyAction env a Action.ConfirmYes).dirty =
      (applyAction env a Action.ConfirmNo).dirty := by
  rcases hex : env.exportRes with e | m <;>
    rcases hpc : a.pending_confirm with _ | ⟨⟩ <;>
      simp [applyAction, h, hpc, hex, App.exit_confirm_mode, App.set_message,
        App.set_warning]

/-- Witness for C2 at a concrete Confirm-mode state. -/
theorem C2_confirm_both_quit_witness :
    (applyAction env0 (App.enter_confirm_mode app1 ConfirmAction.CopyAndQuit)
      Action.ConfirmYes).should_quit = true ∧
    (applyAction env0 (App.enter_confirm_mode app1 ConfirmAction.CopyAndQuit)
      Action.ConfirmNo).should_quit = true :=
  ⟨(C2_confirm_both_quit env0 (App.enter_confirm_mode app1 ConfirmAction.CopyAndQuit)
      (by decide)).1,
   (C2_confirm_both_quit env0 (App.enter_confirm_mode app1 ConfirmAction.CopyAndQuit)
      (by decide)).2.1⟩

/-- Sample Command-mode state with buffer q. -/
def appQ : App := { app0 with input_mode := InputMode.Command, command_buffer := "q" }

/-- Sample Command-mode state with buffer wq and no comments. -/
def appWq : App := { app0 with input_mode := InputMode.Command, command_buffer := "wq" }

/-- Sample Command-mode state with the unrecognized buffer bogus. -/
def appBogus : App :=
  { app0 with input_mode := InputMode.Command, command_buffer := "bogus" }

/-- Sample Command-mode state with buffer wq and one stored comment. -/
def appWqC : App := { app1 with input_mode := InputMode.Command, command_buffer := "wq" }

/-- Sample Command-mode state with buffer w and the dirty flag set. -/
def appW : App :=
  { app0 with input_mode := InputMode.Command, command_buffer := "w", dirty := true }

/-- The command words recognized by Submit in Command mode
(src/src/main.rs lines 447-488). -/
def recognizedCommand (cmd : String) : Bool :=
  cmd = "q" || cmd = "quit" || cmd = "w" || cmd = "write" || cmd = "x" || cmd = "wq" ||
  cmd = "e" || cmd = "reload" || cmd = "clip" || cmd = "export"

/-- C7: when saving fails in the write or write-quit command, an error message
is reported, the dirty flag is left exactly as it was (so a set flag remains
set), the session is untouched and the quit flag keeps its value, so the
process keeps running. -/
theorem C7_save_failure (env : ExtEnv) (a : App) (e : String)
    (hm : a.input_mode = InputMode.Command)
    (hs : env.saveRes = Except.error e)
    (hc : strTrim a.command_buffer = "w" ∨ strTrim a.command_buffer = "write" ∨
          strTrim a.command_buffer = "x" ∨ strTrim a.command_buffer = "wq") :
    (applyAction env a Action.SubmitInput).message =
      some ⟨MsgKind.error, "Save failed: " ++ e⟩ ∧
    (applyAction env a Action.SubmitInput).dirty = a.dirty ∧
    (applyAction env a Action.SubmitInput).should_quit = a.should_quit ∧
    (applyAction env a Action.SubmitInput).session = a.session := by
  rcases hc with h | h | h | h <;>
    simp [applyAction, hm, submitCommand, h, hs, App.exit_command_mode, App.set_error]

/-- Witness for C7: failing save of the write command on a dirty state. -/
theorem C7_save_failure_witness :
    (applyAction envFail appW Action.SubmitInput).message =
      some ⟨MsgKind.error, "Save failed: disk full"⟩ ∧
    (applyAction envFail appW Action.SubmitInput).dirty = appW.dirty ∧
    (applyAction envFail appW Action.SubmitInput).should_quit = appW.should_quit ∧
    (applyAction envFail appW Action.SubmitInput).session = appW.session :=
  C7_save_failure envFail appW "disk full" (by decide) rfl (Or.inl (by decide))

/-- C8: when export delivery fails, whether through the clip or export command
or through the direct export action, only a warning message is produced; the
session, the diff model, the dirty flag and the quit flag are unchanged. -/
theorem C8_export_failure (env : ExtEnv) (a : App) (e : String)
    (he : env.exportRes = Except.error e) :
    ((a.input_mode = InputMode.Command ∧
      (strTrim a.command_buffer = "clip" ∨ strTrim a.command_buffer = "export")) →
      (applyAction env a Action.SubmitInput).session = a.session ∧
      (applyAction env a Action.SubmitInput).diff = a.diff ∧
      (applyAction env a Action.SubmitInput).should_quit = a.should_quit ∧
      (applyAction env a Action.SubmitInput).dirty = a.dirty ∧
      (applyAction env a Action.SubmitInput).message = some ⟨MsgKind.warning, e⟩) ∧
    ((applyAction env a Action.ExportToClipboard).session = a.session ∧
     (applyAction env a Action.ExportToClipboard).diff = a.diff ∧
     (applyAction env a Action.ExportToClipboard).should_quit = a.should_quit ∧
     (applyAction env a Action.ExportToClipboard).dirty = a.dirty ∧
     (applyAction env a Action.ExportToClipboard).input_mode = a.input_mode ∧
     (applyAction env a Action.ExportToClipboard).message = some ⟨MsgKind.warning, e⟩) := by
  constructor
  · rintro ⟨hm, h | h⟩ <;>
      simp [applyAction, hm, submitCommand, h, he, App.exit_command_mode,
        App.set_warning]
  · simp [applyAction, he, App.set_warning]

/-- Witness for C8: failing export via the clip command. -/
theorem C8_export_failure_witness :
    (applyAction envFail
      { app1 with input_mode := InputMode.Command, command_buffer := "clip" }
      Action.SubmitInput).session =
      ({ app1 with input_mode := InputMode.Command, command_buffer := "clip" } : App).session ∧
    (applyAction envFail
      { app1 with input_mode := InputMode.Command, command_buffer := "clip" }
      Action.SubmitInput).message = some ⟨MsgKind.warning, "no clipboard"⟩ :=
  ⟨((C8_export_failure envFail
      { app1 with input_mode := InputMode.Command, command_buffer := "clip" }
      "no clipboard" rfl).1 ⟨by decide, Or.inl (by decide)⟩).1,
   ((C8_export_failure envFail
      { app1 with input_mode := InputMode.Command, command_buffer := "clip" }
      "no clipboard" rfl).1 ⟨by decide, Or.inl (by decide)⟩).2.2.2.2⟩

/-- C1 counterexample: with command buffer bogus, Submit sets the status
message "Unknown command: bogus" with a capital U, not the claimed lowercase
"unknown command: bogus". -/
theorem C1_counterexample :
    (applyAction env0 appBogus Action.SubmitInput).message.map Message.text =
      some "Unknown command: bogus" ∧
    (applyAction env0 appBogus Action.SubmitInput).message.map Message.text ≠
      some "unknown command: bogus" := by
  decide

/-- C1 (amended): Submit in Command mode behaves as claimed, except that the
unknown-command message is capitalized: buffer q quits with no save and no
other change; buffer wq with zero stored comments and a successful save quits
without entering the confirmation prompt; an unrecognized buffer leaves the
quit flag and all review state unchanged and sets the status message
"Unknown command: " followed by the trimmed input. -/
theorem C1_command_submit (env : ExtEnv) (a : App)
    (hm : a.input_mode = InputMode.Command) :
    (strTrim a.command_buffer = "q" →
      (applyAction env a Action.SubmitInput).should_quit = true ∧
      (applyAction env a Action.SubmitInput).save_count = a.save_count ∧
      (applyAction env a Action.SubmitInput).session = a.session ∧
      (applyAction env a Action.SubmitInput).dirty = a.dirty ∧
      (applyAction env a Action.SubmitInput).message = a.message) ∧
    (∀ p, strTrim a.command_buffer = "wq" → a.session.comments = [] →
      env.saveRes = Except.ok p →
      (applyAction env a Action.SubmitInput).should_quit = true ∧
      (applyAction env a Action.SubmitInput).input_mode = InputMode.Normal ∧
      (applyAction env a Action.SubmitInput).pending_confirm = a.pending_confirm ∧
      (applyAction env a Action.SubmitInput).save_count = a.save_count + 1) ∧
    (recognizedCommand (strTrim a.command_buffer) = false →
      (applyAction env a Action.SubmitInput).should_quit = a.should_quit ∧
      (applyAction env a Action.SubmitInput).message =
        some ⟨MsgKind.info, "Unknown command: " ++ strTrim a.command_buffer⟩ ∧
      (applyAction env a Action.SubmitInput).session = a.session ∧
      (applyAction env a Action.SubmitInput).dirty = a.dirty ∧
      (applyAction env a Action.SubmitInput).save_count = a.save_count ∧
      (applyAction env a Action.SubmitInput).export_count = a.export_count ∧
      (applyAction env a Action.SubmitInput).diff = a.diff) := by
  refine ⟨?_, ?_, ?_⟩
  · intro h
    simp [applyAction, hm, submitCommand, h, App.exit_command_mode]
  · intro p h hc hs
    simp [applyAction, hm, submitCommand, h, hs, hc, Session.has_comments,
      App.exit_command_mode]
  · intro h
    have hq : strTrim a.command_buffer ≠ "q" := fun hh => by
      simp [recognizedCommand, hh] at h
    have hquit : strTrim a.command_buffer ≠ "quit" := fun hh => by
      simp [recognizedCommand, hh] at h
    have hw : strTrim a.command_buffer ≠ "w" := fun hh => by
      simp [recognizedCommand, hh] at h
    have hwrite : strTrim a.command_buffer ≠ "write" := fun hh => by
      simp [recognizedCommand, hh] at h
    have hx : strTrim a.command_buffer ≠ "x" := fun hh => by
      simp [recognizedCommand, hh] at h
    have hwq : strTrim a.command_buffer ≠ "wq" := fun hh => by
      simp [recognizedCommand, hh] at h
    have he : strTrim a.command_buffer ≠ "e" := fun hh => by
      simp [recognizedCommand, hh] at h
    have hreload : strTrim a.command_buffer ≠ "reload" := fun hh => by
      simp [recognizedCommand, hh] at h
    have hclip : strTrim a.command_buffer ≠ "clip" := fun hh => by
      simp [recognizedCommand, hh] at h
    have hexport : strTrim a.command_buffer ≠ "export" := fun hh => by
      simp [recognizedCommand, hh] at h
    simp [applyAction, hm, submitCommand, hq, hquit, hw, hwrite, hx, hwq, he,
      hreload, hclip, hexport, App.exit_command_mode, App.set_message]

/-- Witness for C1 at the three concrete buffers q, wq and bogus. -/
theorem C1_command_submit_witness :
    (applyAction env0 appQ Action.SubmitInput).should_quit = true ∧
    ((applyAction env0 appWq Action.SubmitInput).should_quit = true ∧
     (applyAction env0 appWq Action.SubmitInput).input_mode = InputMode.Normal) ∧
    (applyAction env0 appBogus Action.SubmitInput).message =
      some ⟨MsgKind.info, "Unknown command: " ++ strTrim appBogus.command_buffer⟩ :=
  ⟨((C1_command_submit env0 appQ (by decide)).1 (by decide)).1,
   ⟨((C1_command_submit env0 appWq (by decide)).2.1 "sess.json" (by decide) (by decide)
      rfl).1,
    ((C1_command_submit env0 appWq (by decide)).2.1 "sess.json" (by decide) (by decide)
      rfl).2.1⟩,
   ((C1_command_submit env0 appBogus (by decide)).2.2 (by decide)).2.1⟩

/-- C6 counterexample: the write-quit command with a successful save and one
stored comment leaves the input mode in Confirm, not Normal. -/
theorem C6_counterexample :
    (applyAction env0 appWqC Action.SubmitInput).input_mode = InputMode.Confirm ∧
    InputMode.Confirm ≠ InputMode.Normal := by
  decide

/-- C6 (amended): every Command-mode command executed on Submit returns the
input mode to Normal afterward, except write-quit when the save succeeds and
comments exist, which enters Confirm mode to prompt for export. -/
theorem C6_command_mode_return (env : ExtEnv) (a : App)
    (hm : a.input_mode = InputMode.Command) :
    (applyAction env a Action.SubmitInput).input_mode = InputMode.Normal ∨
    ((strTrim a.command_buffer = "x" ∨ strTrim a.command_buffer = "wq") ∧
     (∃ p, env.saveRes = Except.ok p) ∧ a.session.has_comments = true ∧
     (applyAction env a Action.SubmitInput).input_mode = InputMode.Confirm) := by
  simp only [applyAction, hm, reduceIte, submitCommand]
  split_ifs with h1 h2 h3 hc h4 h5
  · left; simp [App.exit_command_mode]
  · rcases hs : env.saveRes with e | p <;> left <;>
      simp [App.exit_command_mode, App.set_message, App.set_error]
  · rcases hs : env.saveRes with e | p
    · left; simp [App.exit_command_mode, App.set_error]
    · right
      refine ⟨h3, ⟨p, rfl⟩, ?_, ?_⟩
      · simpa [Session.has_comments] using hc
      · simp [App.exit_command_mode, App.enter_confirm_mode]
  · rcases hs : env.saveRes with e | p <;> left <;>
      simp [App.exit_command_mode, App.set_error]
  · rcases hr : env.reloadRes with e | files <;> left <;>
      simp [App.exit_command_mode, App.set_message, App.set_error]
  · rcases hx : env.exportRes with e | m <;> left <;>
      simp [App.exit_command_mode, App.set_message, App.set_warning]
  · left; simp [App.exit_command_mode, App.set_message]

/-- Witness for C6: the quit command returns to Normal mode. -/
theorem C6_command_mode_return_witness :
    (applyAction env0 appQ Action.SubmitInput).input_mode = InputMode.Normal ∨
    ((strTrim appQ.command_buffer = "x" ∨ strTrim appQ.command_buffer = "wq") ∧
     (∃ p, env0.saveRes = Except.ok p) ∧ appQ.session.has_comments = true ∧
     (applyAction env0 appQ Action.SubmitInput).input_mode = InputMode.Confirm) :=
  C6_command_mode_return env0 appQ (by decide)

/-- Sample Comment-mode state with a three-character draft. -/
def appC : App :=
  { app0 with
    input_mode := InputMode.Comment
    comment_buffer := ['d', 'r', 'a']
    comment_cursor := 3 }

/-- C4: a first interrupt press in Comment mode cancels the in-progress draft
(back to Normal mode with the draft buffer discarded and the comment store
untouched) and in addition arms the exit countdown with its warning message,
without quitting. -/
theorem C4_interrupt_cancels_draft (env : ExtEnv) (now : Nat) (s : LoopState)
    (hm : s.app.input_mode = InputMode.Comment) (hcc : s.pending_ctrl_c = none) :
    (handleKey env now ctrlCKey s).app.input_mode = InputMode.Normal ∧
    (handleKey env now ctrlCKey s).app.comment_buffer = [] ∧
    (handleKey env now ctrlCKey s).app.session = s.app.session ∧
    (handleKey env now ctrlCKey s).app.should_quit = s.app.should_quit ∧
    (handleKey env now ctrlCKey s).pending_ctrl_c = some now ∧
    (handleKey env now ctrlCKey s).app.message =
      some ⟨MsgKind.info, "Press Ctrl+C again to exit"⟩ := by
  simp [handleKey, ctrlCKey, hm, hcc, App.exit_comment_mode, App.set_message]

/-- Witness for C4 on a concrete Comment-mode draft. -/
theorem C4_interrupt_cancels_draft_witness :
    (handleKey env0 7 ctrlCKey (initLoopState appC)).app.input_mode =
      InputMode.Normal ∧
    (handleKey env0 7 ctrlCKey (initLoopState appC)).app.comment_buffer = [] ∧
    (handleKey env0 7 ctrlCKey (initLoopState appC)).app.session =
      (initLoopState appC).app.session ∧
    (handleKey env0 7 ctrlCKey (initLoopState appC)).app.should_quit =
      (initLoopState appC).app.should_quit ∧
    (handleKey env0 7 ctrlCKey (initLoopState appC)).pending_ctrl_c = some 7 ∧
    (handleKey env0 7 ctrlCKey (initLoopState appC)).app.message =
      some ⟨MsgKind.info, "Press Ctrl+C again to exit"⟩ :=
  C4_interrupt_cancels_draft env0 7 (initLoopState appC) rfl rfl

/-- The final dispatch never touches the pending interrupt timestamp. -/
lemma dispatchKey_pcc (env : ExtEnv) (k : Key) (s : LoopState) :
    (dispatchKey env k s).pending_ctrl_c = s.pending_ctrl_c := by
  unfold dispatchKey
  cases map_key_to_action k s.app.input_mode <;> simp

/-- The pending-semicolon stage never touches the pending interrupt
timestamp. -/
lemma afterPendingD_pcc (env : ExtEnv) (k : Key) (s : LoopState) :
    (afterPendingD env k s).pending_ctrl_c = s.pending_ctrl_c := by
  unfold afterPendingD
  split_ifs
  · split <;> simp [dispatchKey_pcc]
  · exact dispatchKey_pcc env k s

/-- The pending-d stage never touches the pending interrupt timestamp. -/
lemma afterPendingZ_pcc (env : ExtEnv) (k : Key) (s : LoopState) :
    (afterPendingZ env k s).pending_ctrl_c = s.pending_ctrl_c := by
  unfold afterPendingZ
  split_ifs <;> simp [afterPendingD_pcc]

/-- The pending-z stage never touches the pending interrupt timestamp. -/
lemma afterCtrlC_pcc (env : ExtEnv) (k : Key) (s : LoopState) :
    (afterCtrlC env k s).pending_ctrl_c = s.pending_ctrl_c := by
  unfold afterCtrlC
  split_ifs <;> simp [afterPendingZ_pcc]

/-- A key with no named code maps to no action in every mode. -/
lemma map_otherKey (m : InputMode) :
    map_key_to_action ⟨KeyCode.otherKey, false⟩ m = Action.other := by
  cases m <;> rfl

/-- Normal form of the first interrupt press from an unarmed state. -/
lemma step_first_ctrlc (env : ExtEnv) (s : LoopState) (t1 : Nat)
    (hcc : s.pending_ctrl_c = none) :
    step env s (t1, ctrlCKey) =
      { s with
        app := App.set_message
          (if s.app.input_mode = InputMode.Comment then s.app.exit_comment_mode
           else s.app) "Press Ctrl+C again to exit"
        pending_ctrl_c := some t1 } := by
  simp [step, autoClear, hcc, handleKey, ctrlCKey]

/-- C3: interrupt-key timing. From a state with no pending interrupt and no
armed leader keys, a first press at t1 arms the countdown and shows the
warning without quitting; a second press within the timeout quits; a second
press after more than the timeout does not quit and acts as an independent
first press; the armed state and its message are cleared by the timeout
elapsing at the top of a later iteration, and the armed state is cleared by
any other keypress (shown together with the cleared message for a key mapped
to no action). -/
theorem C3_interrupt_timeout (env : ExtEnv) (s : LoopState) (t1 : Nat)
    (hz : s.pending_z = false) (hd : s.pending_d = false)
    (hsc : s.pending_semicolon = false) (hcc : s.pending_ctrl_c = none) :
    ((step env s (t1, ctrlCKey)).pending_ctrl_c = some t1 ∧
     (step env s (t1, ctrlCKey)).app.message =
       some ⟨MsgKind.info, "Press Ctrl+C again to exit"⟩ ∧
     (step env s (t1, ctrlCKey)).app.should_quit = s.app.should_quit) ∧
    (∀ t2, t1 ≤ t2 → t2 - t1 < CTRL_C_EXIT_TIMEOUT →
      (step env (step env s (t1, ctrlCKey)) (t2, ctrlCKey)).app.should_quit = true) ∧
    (∀ t2, CTRL_C_EXIT_TIMEOUT < t2 - t1 →
      (step env (step env s (t1, ctrlCKey)) (t2, ctrlCKey)).app.should_quit =
        s.app.should_quit ∧
      (step env (step env s (t1, ctrlCKey)) (t2, ctrlCKey)).pending_ctrl_c = some t2 ∧
      (step env (step env s (t1, ctrlCKey)) (t2, ctrlCKey)).app.message =
        some ⟨MsgKind.info, "Press Ctrl+C again to exit"⟩) ∧
    (∀ t3, CTRL_C_EXIT_TIMEOUT ≤ t3 - t1 →
      (autoClear t3 (step env s (t1, ctrlCKey))).pending_ctrl_c = none ∧
      (autoClear t3 (step env s (t1, ctrlCKey))).app.message = none) ∧
    (∀ (t2 : Nat) (k : Key), ¬(k.code = KeyCode.char 'c' ∧ k.ctrl = true) →
      (handleKey env t2 k (step env s (t1, ctrlCKey))).pending_ctrl_c = none) ∧
    (∀ t2 : Nat,
      (handleKey env t2 ⟨KeyCode.otherKey, false⟩
        (step env s (t1, ctrlCKey))).app.message = none) := by
  rw [step_first_ctrlc env s t1 hcc]
  refine ⟨⟨rfl, ?_, ?_⟩, ?_, ?_, ?_, ?_, ?_⟩
  · simp [App.set_message]
  · by_cases hm : s.app.input_mode = InputMode.Comment <;>
      simp [hm, App.set_message, App.exit_comment_mode]
  · intro t2 hle hlt
    have hn : ¬(CTRL_C_EXIT_TIMEOUT ≤ t2 - t1) := by omega
    simp [step, autoClear, hn, handleKey, ctrlCKey, hlt, App.set_message]
  · intro t2 hgt
    have hy : CTRL_C_EXIT_TIMEOUT ≤ t2 - t1 := le_of_lt hgt
    refine ⟨?_, ?_, ?_⟩ <;>
      by_cases hm : s.app.input_mode = InputMode.Comment <;>
        simp [step, autoClear, hy, handleKey, ctrlCKey, hm, App.set_message,
          App.exit_comment_mode]
  · intro t3 hy
    simp [autoClear, hy, App.set_message]
  · intro t2 k hk
    simp only [handleKey, if_neg hk]
    simp only [App.set_message, Option.isSome_some, if_pos]
    rw [afterCtrlC_pcc]
  · intro t2
    have hk : ¬((⟨KeyCode.otherKey, false⟩ : Key).code = KeyCode.char 'c' ∧
        (⟨KeyCode.otherKey, false⟩ : Key).ctrl = true) := by simp
    simp only [handleKey, if_neg hk]
    simp only [App.set_message, Option.isSome_some, if_pos]
    simp [afterCtrlC, afterPendingZ, afterPendingD, hz, hd, hsc, dispatchKey,
      map_otherKey, applyAction]

/-- Witness for C3 at concrete times 0, 1 and 5. -/
theorem C3_interrupt_timeout_witness :
    (step env0 (initLoopState app0) (0, ctrlCKey)).pending_ctrl_c = some 0 ∧
    (step env0 (step env0 (initLoopState app0) (0, ctrlCKey))
      (1, ctrlCKey)).app.should_quit = true ∧
    (step env0 (step env0 (initLoopState app0) (0, ctrlCKey))
      (5, ctrlCKey)).app.should_quit = (initLoopState app0).app.should_quit ∧
    (autoClear 5 (step env0 (initLoopState app0) (0, ctrlCKey))).pending_ctrl_c =
      none ∧
    (handleKey env0 1 ⟨KeyCode.char 'x', false⟩
      (step env0 (initLoopState app0) (0, ctrlCKey))).pending_ctrl_c = none ∧
    (handleKey env0 1 ⟨KeyCode.otherKey, false⟩
      (step env0 (initLoopState app0) (0, ctrlCKey))).app.message = none := by
  have h := C3_interrupt_timeout env0 (initLoopState app0) 0 rfl rfl rfl rfl
  exact ⟨h.1.1, h.2.1 1 (by decide) (by decide), (h.2.2.1 5 (by decide)).1,
    (h.2.2.2.1 5 (by decide)).1, h.2.2.2.2.1 1 ⟨KeyCode.char 'x', false⟩ (by decide),
    h.2.2.2.2.2 1⟩

/-- C5 counterexample: the interrupt key Ctrl+C is a key other than d, yet
pressing it with the delete leader armed does not cancel the pending state —
the interrupt handling runs first and leaves the armed slot untouched. -/
theorem C5_counterexample :
    ctrlCKey.code ≠ KeyCode.char 'd' ∧
    (handleKey env0 1 ctrlCKey
      { initLoopState app1 with pending_d := true }).pending_d = true := by
  decide

/-- C5 (amended): with the delete leader armed, any follow-up key other than d
that is not the interrupt key Ctrl+C (which is handled before the pending
check and leaves the slot armed) cancels the pending state, deletes nothing
and is reprocessed exactly as it would be without the armed slot; the d key in
Normal mode arms the slot; a second d with a comment under the cursor removes
exactly that comment, and with no matching comment leaves the store unchanged
and reports that there is nothing to delete. -/
theorem C5_pending_delete (env : ExtEnv) :
    (∀ (now : Nat) (k : Key) (s : LoopState),
      ¬(k.code = KeyCode.char 'c' ∧ k.ctrl = true) → k.code ≠ KeyCode.char 'd' →
      s.pending_z = false →
      handleKey env now k { s with pending_d := true } =
        handleKey env now k { s with pending_d := false }) ∧
    (∀ (now : Nat) (s : LoopState), s.app.input_mode = InputMode.Normal →
      s.pending_z = false → s.pending_d = false → s.pending_semicolon = false →
      s.pending_ctrl_c = none →
      handleKey env now ⟨KeyCode.char 'd', false⟩ s = { s with pending_d := true }) ∧
    (∀ (now : Nat) (s : LoopState) (anc : Anchor), s.pending_d = true →
      s.pending_z = false → s.app.cursor_anchor = some anc →
      (s.app.session.comments.any fun c => c.anchor = anc) = true →
      (handleKey env now ⟨KeyCode.char 'd', false⟩ s).app.session.comments =
        removeFirstAnchored anc s.app.session.comments ∧
      (handleKey env now ⟨KeyCode.char 'd', false⟩ s).app.session.comments.length + 1 =
        s.app.session.comments.length ∧
      (handleKey env now ⟨KeyCode.char 'd', false⟩ s).pending_d = false) ∧
    (∀ (now : Nat) (s : LoopState), s.pending_d = true → s.pending_z = false →
      (s.app.cursor_anchor = none ∨
        ∃ anc, s.app.cursor_anchor = some anc ∧
          (s.app.session.comments.any fun c => c.anchor = anc) = false) →
      (handleKey env now ⟨KeyCode.char 'd', false⟩ s).app.session.comments =
        s.app.session.comments ∧
      (handleKey env now ⟨KeyCode.char 'd', false⟩ s).app.message =
        some ⟨MsgKind.info, "No comment at cursor"⟩ ∧
      (handleKey env now ⟨KeyCode.char 'd', false⟩ s).pending_d = false) := by
  refine ⟨?_, ?_, ?_, ?_⟩
  · intro now k s hk hd hz
    obtain ⟨app, pz, pd, ps, pcc⟩ := s
    simp only at hz
    subst hz
    cases pcc <;>
      simp [handleKey, if_neg hk, afterCtrlC, afterPendingZ, hd]
  · intro now s hm hz hd hsc hcc
    obtain ⟨app, pz, pd, ps, pcc⟩ := s
    simp only at hm hz hd hsc hcc
    subst hz; subst hd; subst hsc; subst hcc
    have hk : ¬((⟨KeyCode.char 'd', false⟩ : Key).code = KeyCode.char 'c' ∧
        (⟨KeyCode.char 'd', false⟩ : Key).ctrl = true) := by simp
    simp [handleKey, if_neg hk, afterCtrlC, afterPendingZ, afterPendingD,
      dispatchKey, map_key_to_action, hm]
  · intro now s anc hpd hz hcur hany
    obtain ⟨app, pz, pd, ps, pcc⟩ := s
    simp only at hpd hz hcur hany
    subst hpd; subst hz
    have hk : ¬((⟨KeyCode.char 'd', false⟩ : Key).code = KeyCode.char 'c' ∧
        (⟨KeyCode.char 'd', false⟩ : Key).ctrl = true) := by simp
    refine ⟨?_, ?_, ?_⟩ <;>
      cases pcc <;>
        simp [handleKey, if_neg hk, afterCtrlC, afterPendingZ,
          App.delete_comment_at_cursor, hcur, hany, App.set_message,
          removeFirstAnchored_length anc app.session.comments hany]
  · intro now s hpd hz hcur
    obtain ⟨app, pz, pd, ps, pcc⟩ := s
    simp only at hpd hz hcur
    subst hpd; subst hz
    have hk : ¬((⟨KeyCode.char 'd', false⟩ : Key).code = KeyCode.char 'c' ∧
        (⟨KeyCode.char 'd', false⟩ : Key).ctrl = true) := by simp
    rcases hcur with hnone | ⟨anc, hsome, hany⟩
    · refine ⟨?_, ?_, ?_⟩ <;>
        cases pcc <;>
          simp [handleKey, if_neg hk, afterCtrlC, afterPendingZ,
            App.delete_comment_at_cursor, hnone, App.set_message]
    · rw [List.any_eq_false] at hany
      simp only [decide_eq_true_eq] at hany
      have hcond : ¬∃ x ∈ app.session.comments, x.anchor = anc := by
        rintro ⟨x, hx, he⟩
        exact hany x hx he
      refine ⟨?_, ?_, ?_⟩ <;>
        cases pcc <;>
          simp [handleKey, if_neg hk, afterCtrlC, afterPendingZ,
            App.delete_comment_at_cursor, hsome, App.set_message, hcond]

/-- Witness for C5: fall-through of the key j, arming via d, double-d deletion
of the sample comment, and the no-comment report. -/
theorem C5_pending_delete_witness :
    (handleKey env0 0 ⟨KeyCode.char 'j', false⟩
        { initLoopState app0 with pending_d := true } =
      handleKey env0 0 ⟨KeyCode.char 'j', false⟩
        { initLoopState app0 with pending_d := false }) ∧
    (handleKey env0 0 ⟨KeyCode.char 'd', false⟩ (initLoopState app1) =
      { initLoopState app1 with pending_d := true }) ∧
    (handleKey env0 1 ⟨KeyCode.char 'd', false⟩
        { initLoopState app1 with pending_d := true }).app.session.comments =
      removeFirstAnchored ⟨"a.txt", some 3⟩ (initLoopState app1).app.session.comments ∧
    (handleKey env0 1 ⟨KeyCode.char 'd', false⟩
        { initLoopState app0 with pending_d := true }).app.message =
      some ⟨MsgKind.info, "No comment at cursor"⟩ := by
  have h := C5_pending_delete env0
  exact ⟨h.1 0 ⟨KeyCode.char 'j', false⟩ (initLoopState app0) (by decide) (by decide) rfl,
    h.2.1 0 (initLoopState app1) rfl rfl rfl rfl rfl,
    (h.2.2.1 1 { initLoopState app1 with pending_d := true } ⟨"a.txt", some 3⟩
      rfl rfl rfl (by decide)).1,
    (h.2.2.2 1 { initLoopState app0 with pending_d := true } rfl rfl
      (Or.inl rfl)).2.1⟩

/-- C9: a startup failure exits with code 1 (never the success code) after a
banner naming the three supported backends git, jujutsu and mercurial; a run
whose event trace reaches should_quit exits with code 0. -/
theorem C9_exit_codes :
    (∀ (e : String) (env : ExtEnv) (evs : List (Nat × Key)),
      mainExitCode (Except.error e) env evs = some 1 ∧
      mainExitCode (Except.error e) env evs ≠ some 0) ∧
    (∀ e : String,
      strContains (startupFailureBanner e) "git" = true ∧
      strContains (startupFailureBanner e) "jujutsu" = true ∧
      strContains (startupFailureBanner e) "mercurial" = true) ∧
    (∀ (a : App) (env : ExtEnv) (evs : List (Nat × Key)),
      (runLoop env (initLoopState a) evs).app.should_quit = true →
      mainExitCode (Except.ok a) env evs = some 0) := by
  refine ⟨?_, ?_, ?_⟩
  · intro e env evs
    simp [mainExitCode]
  · intro e
    refine ⟨?_, ?_, ?_⟩ <;>
      · unfold strContains startupFailureBanner
        rw [String.data_append, String.data_append]
        exact containsL_append_of_right _ _ _ (by decide)
  · intro a env evs h
    simp [mainExitCode, h]

/-- Witness for C9: a failing startup, the banner names, and a trace of two
interrupt presses reaching the success exit code. -/
theorem C9_exit_codes_witness :
    mainExitCode (Except.error "no repository") env0 [] = some 1 ∧
    strContains (startupFailureBanner "no repository") "jujutsu" = true ∧
    mainExitCode (Except.ok app0) env0 [(0, ctrlCKey), (1, ctrlCKey)] = some 0 :=
  ⟨(C9_exit_codes.1 "no repository" env0 []).1,
   (C9_exit_codes.2.1 "no repository").2.1,
   C9_exit_codes.2.2 app0 env0 [(0, ctrlCKey), (1, ctrlCKey)] (by decide)⟩

/-- Sample Comment-mode state with an empty draft. -/
def appCE : App := { app0 with input_mode := InputMode.Comment }

/-- C10: evaluation of the byte-faithful comment editor at the failing input.
Typing the two-byte character at code point E9 and then the letter a in
Comment mode reaches a String insert at byte position 1, which lies inside
the first character's encoding and is not a character boundary, so the
source program panics there; the model records the panic both for the direct
action sequence and for the raw key events through the full event loop. The
zero-cursor conjuncts show the no-op part of the claim holding at a concrete
state. -/
theorem C10_multibyte_insert_panics :
    insertAtByte ['é'] 1 'a' = none ∧
    (applyActions env0 appCE
      [Action.InsertChar 'é', Action.InsertChar 'a']).panicked = true ∧
    (runLoop env0 (initLoopState appCE)
      [(0, ⟨KeyCode.char 'é', false⟩),
       (1, ⟨KeyCode.char 'a', false⟩)]).app.panicked = true ∧
    applyAction env0 appCE Action.DeleteChar = appCE ∧
    applyAction env0 appCE Action.DeleteWord = appCE ∧
    applyAction env0 appCE Action.TextCursorLeft = appCE := by
  decide

end Tuicr
